import Mathlib

/-!
Shallow embedding of the notification state manager in
`src/components/AdminNotifications.js`: the component state
(`notifications`, `loading`, `error`, `unreadCount`), the operations
`fetchNotifications`, `handleMarkAsRead`, `formatNotificationTime`,
`getNotificationContent`, and the auto-refresh timer installed by the
mount `useEffect`.
-/

namespace AdminNotifications

/-- A notification's `createdAt` value as it can arrive from the backend:
absent/falsy (`undefined`, `null`, `0`, `""`), an ISO-like string (which
JS `new Date(...)` may or may not parse), a backend temporal object
exposing `toDate()` (always yields a valid date, carried as an epoch),
or a numeric epoch. -/
inductive Timestamp where
  | missing : Timestamp
  | str : String → Timestamp
  | tsObj : Int → Timestamp
  | num : Int → Timestamp
deriving Repr, DecidableEq

/-- The notification record of the data model: `id`, `type` (possibly
absent or an unrecognized tag), `read`, `createdAt`, and the
type-specific fields `userName` / `userEmail` consumed by
`getNotificationContent`. Absent or JS-falsy string fields are `none`
or `some ""`. -/
structure Notification where
  id : String
  type : Option String
  read : Bool
  createdAt : Timestamp
  userName : Option String
  userEmail : Option String
deriving Repr, DecidableEq

/-- The component's local state: the four `useState` hooks of
`AdminNotifications`. `unreadCount` is a JS number, embedded as `Int`
(the code clamps it with `Math.max(0, prev - 1)`). -/
structure PanelState where
  notifications : List Notification
  loading : Bool
  error : String
  unreadCount : Int
deriving Repr, DecidableEq

/-- The initial hook values: empty list, not loading, empty error,
count 0. -/
def initialState : PanelState :=
  { notifications := [], loading := false, error := "", unreadCount := 0 }

/-- Outcome of awaiting the external fetch collaborator
`getAdminNotifications()`: it resolves with a list or rejects. -/
inductive FetchResult where
  | success : List Notification → FetchResult
  | failure : FetchResult

/-- Outcome of awaiting the external collaborator
`markNotificationAsRead(id)`. -/
inductive AckResult where
  | success : AckResult
  | failure : AckResult

/-- First half of `fetchNotifications`, up to the `await`:
`setLoading(true)`. Nothing else is written before the collaborator
settles (in particular the `error` hook is not touched). -/
def fetchStart (s : PanelState) : PanelState :=
  { s with loading := true }

/-- Second half of `fetchNotifications`, after the `await` settles.
On success: `setNotifications(fetchedNotifications)` and
`setUnreadCount(fetchedNotifications.filter(n => !n.read).length)`.
On rejection: the `catch` block runs `setError('Failed to load
notifications')`. Both paths run the `finally` block
`setLoading(false)`. -/
def fetchSettle (s : PanelState) : FetchResult → PanelState
  | .success ns =>
      { s with
        notifications := ns,
        unreadCount := ((ns.filter fun n => !n.read).length : Int),
        loading := false }
  | .failure =>
      { s with error := "Failed to load notifications", loading := false }

/-- The whole `fetchNotifications` run, parameterized by how the
collaborator settles. -/
def fetchNotifications (s : PanelState) (r : FetchResult) : PanelState :=
  fetchSettle (fetchStart s) r

/-- `handleMarkAsRead(notificationId)`. When the collaborator resolves,
the list is replaced by a map flipping `read` to `true` on every entry
whose `id` matches, and `setUnreadCount(prev => Math.max(0, prev - 1))`
runs. When the collaborator rejects, the `catch` block only logs: no
state hook is written. -/
def handleMarkAsRead (s : PanelState) (nid : String) : AckResult → PanelState
  | .success =>
      { s with
        notifications :=
          s.notifications.map fun n =>
            if n.id = nid then { n with read := true } else n,
        unreadCount := max 0 (s.unreadCount - 1) }
  | .failure => s

/-- JS template interpolation of `userName || userEmail`: a truthy
(non-empty, present) `userName` wins, otherwise `userEmail` is
interpolated as-is (`undefined` prints as the string `"undefined"`). -/
def jsNameOrEmail (userName userEmail : Option String) : String :=
  match userName with
  | some u => if u ≠ "" then u else (match userEmail with
      | some e => e
      | none => "undefined")
  | none => match userEmail with
      | some e => e
      | none => "undefined"

/-- The display payload returned by `getNotificationContent`. -/
structure NotificationContent where
  title : String
  message : String
  link : String
  linkText : String
deriving Repr, DecidableEq

/-- `getNotificationContent(notification)`: a switch on
`notification.type` with one recognized case, `'new_google_user'`, and
a default arm returning the generic payload. -/
def getNotificationContent (n : Notification) : NotificationContent :=
  match n.type with
  | some "new_google_user" =>
      { title := "New Google Sign-up",
        message := jsNameOrEmail n.userName n.userEmail ++
          " has signed up with Google and is pending approval.",
        link := "/admin/pending-users",
        linkText := "View Pending Users" }
  | _ =>
      { title := "Notification",
        message := "You have a new notification.",
        link := "",
        linkText := "" }

/-- The generic fallback payload of the switch's default arm. -/
def fallbackContent : NotificationContent :=
  { title := "Notification",
    message := "You have a new notification.",
    link := "",
    linkText := "" }

/-- `formatNotificationTime(timestamp)`. A falsy timestamp returns `""`
at once. Inside the `try`, a string goes through `new Date(string)`
(embedded as the external `parse`, `none` when the string yields an
invalid date, which makes `format` throw and the `catch` return
`'Invalid date'`); an object with `toDate` and a numeric epoch both
yield valid dates, then `format(date, 'MMM d, yyyy h:mm a')` (the
external `fmtDate`) renders them. -/
def formatNotificationTime (parse : String → Option Int)
    (fmtDate : Int → String) : Timestamp → String
  | .missing => ""
  | .str s =>
      match parse s with
      | some d => fmtDate d
      | none => "Invalid date"
  | .tsObj d => fmtDate d
  | .num d => fmtDate d

/-- Interval passed to `setInterval` in the mount `useEffect`:
`5 * 60 * 1000`. -/
def defaultRefreshIntervalMs : Nat := 5 * 60 * 1000

/-- Abstract-time state of the auto-refresh timer: `some i` while a
`setInterval` handle with period `i` is live, with the time elapsed
since it last fired; `none` after `clearInterval`. -/
structure TimerState where
  interval : Option Nat
  sinceLast : Nat
deriving Repr, DecidableEq

/-- Installing the interval, as the mount effect does with
`setInterval(fetchNotifications, intervalMs)`. -/
def startAutoRefresh (intervalMs : Nat) : TimerState :=
  { interval := some intervalMs, sinceLast := 0 }

/-- The effect cleanup `clearInterval(interval)`: the handle is gone,
so no further firing is possible. -/
def stopAutoRefresh (_t : TimerState) : TimerState :=
  { interval := none, sinceLast := 0 }

/-- One abstract time unit passing: a live interval of period `i` fires
(one `fetchNotifications` invocation) when `i` units have accumulated,
then restarts its countdown; a cleared timer never fires. Returns the
new timer state and the number of fetch invocations triggered. -/
def tick (t : TimerState) : TimerState × Nat :=
  match t.interval with
  | none => (t, 0)
  | some i =>
      if t.sinceLast + 1 ≥ i then
        ({ t with sinceLast := 0 }, 1)
      else
        ({ t with sinceLast := t.sinceLast + 1 }, 0)

/-- Advancing abstract time by `n` units, accumulating the number of
fetch invocations triggered. -/
def advanceTime (t : TimerState) : Nat → TimerState × Nat
  | 0 => (t, 0)
  | n + 1 =>
      let p := tick t
      let q := advanceTime p.1 n
      (q.1, p.2 + q.2)

/-! ## Helper lemmas -/

/-- A cleared timer never fires, however far time advances. -/
lemma advanceTime_cleared (k : Nat) : ∀ n, (advanceTime ⟨none, k⟩ n).2 = 0
  | 0 => rfl
  | n + 1 => by
      simp [advanceTime, tick, advanceTime_cleared k n]

/-- Flipping `read` to `true` on an entry that is already read rebuilds
the same record. -/
lemma markRead_of_read (n : Notification) (h : n.read = true) :
    ({ n with read := true } : Notification) = n := by
  cases n
  simp_all

/-- When ids are unique in the list and the entry at index `j` carries
the acknowledged id, the read-flipping map of `handleMarkAsRead`
rewrites exactly position `j` and leaves every other entry as it was. -/
lemma map_markRead_eq_set (nid : String) :
    ∀ (l : List Notification) (j : Nat) (hj : j < l.length),
      (l.map Notification.id).Nodup →
      (l.get ⟨j, hj⟩).id = nid →
      (l.map fun n => if n.id = nid then { n with read := true } else n) =
        l.set j { l.get ⟨j, hj⟩ with read := true }
  | [], j, hj, _, _ => absurd hj (by simp)
  | a :: t, 0, _, hnd, hid => by
      have hid' : a.id = nid := hid
      rw [List.map_cons] at hnd
      have hnotin : nid ∉ t.map Notification.id := by
        have := (List.nodup_cons.mp hnd).1
        rwa [hid'] at this
      have hfix : ∀ n ∈ t,
          (if n.id = nid then ({ n with read := true } : Notification)
            else n) = id n := by
        intro n hn
        rw [if_neg]
        · rfl
        · intro he
          exact hnotin (he ▸ List.mem_map_of_mem Notification.id hn)
      show (if a.id = nid then ({ a with read := true } : Notification)
          else a) :: (t.map fun n =>
            if n.id = nid then { n with read := true } else n) =
        { a with read := true } :: t
      rw [if_pos hid', List.map_congr_left hfix, List.map_id]
  | a :: t, j + 1, hj, hnd, hid => by
      have hj' : j < t.length := Nat.lt_of_succ_lt_succ hj
      have hid' : (t.get ⟨j, hj'⟩).id = nid := hid
      rw [List.map_cons] at hnd
      have hmem : nid ∈ t.map Notification.id :=
        hid' ▸ List.mem_map_of_mem Notification.id (t.get_mem j hj')
      show (if a.id = nid then ({ a with read := true } : Notification)
          else a) :: (t.map fun n =>
            if n.id = nid then { n with read := true } else n) =
        a :: t.set j { t.get ⟨j, hj'⟩ with read := true }
      rw [if_neg fun he : a.id = nid =>
          (List.nodup_cons.mp hnd).1 (he ▸ hmem),
        map_markRead_eq_set nid t j hj' (List.nodup_cons.mp hnd).2 hid']

/-! ## Theorems for the claims -/

/-- Claim C3: for every list returned by the fetch collaborator, a
successful `fetchNotifications` stores exactly that list (wholesale
replacement, independent of the previous state) and sets `unreadCount`
to the number of entries whose `read` field is `false`. -/
theorem fetch_success_replaces_list_and_counts_unread
    (s : PanelState) (ns : List Notification) :
    (fetchNotifications s (.success ns)).notifications = ns ∧
    (fetchNotifications s (.success ns)).unreadCount =
      ((ns.countP fun n => n.read = false) : Int) := by
  refine ⟨rfl, ?_⟩
  have hfun : (fun n : Notification => !n.read) =
      fun n : Notification => decide (n.read = false) := by
    funext n
    cases h : n.read <;> simp [h]
  simp [fetchNotifications, fetchStart, fetchSettle, hfun,
    List.countP_eq_length_filter]

/-- Claim C4: when the fetch collaborator rejects, the previous
notification list and unread count are retained, the error message is
set, and the run ends with `loading = false` (the rejection is caught,
not propagated). -/
theorem fetch_failure_retains_list_sets_error (s : PanelState) :
    (fetchNotifications s .failure).notifications = s.notifications ∧
    (fetchNotifications s .failure).unreadCount = s.unreadCount ∧
    (fetchNotifications s .failure).error = "Failed to load notifications" ∧
    (fetchNotifications s .failure).loading = false :=
  ⟨rfl, rfl, rfl, rfl⟩

/-- Claim C6: when the mark-as-read collaborator fails, the whole local
state (list, unread count, loading flag, error message) is left exactly
as it was; in particular the panel-wide error state is not touched and
the rejection is absorbed by the `catch` block. -/
theorem ack_failure_leaves_state_untouched (s : PanelState) (nid : String) :
    handleMarkAsRead s nid .failure = s :=
  rfl

/-- Claim C7: a notification whose `type` is not the recognized tag
`'new_google_user'` — including an absent/`null` type — resolves to the
generic fallback payload, whose `link` and `linkText` are both empty;
the resolver is a total function. -/
theorem resolve_unknown_type_is_fallback (n : Notification)
    (h : n.type ≠ some "new_google_user") :
    getNotificationContent n = fallbackContent ∧
    (getNotificationContent n).link = "" ∧
    (getNotificationContent n).linkText = "" := by
  have hres : getNotificationContent n = fallbackContent := by
    unfold getNotificationContent
    split
    · exact absurd (by assumption) h
    · rfl
  exact ⟨hres, by rw [hres]; rfl, by rw [hres]; rfl⟩

/-- Witness for C7 at the concrete unknown tag `"xyz_unhandled"`. -/
theorem resolve_unknown_type_is_fallback_witness :
    ({ id := "9", type := some "xyz_unhandled", read := false,
       createdAt := .missing, userName := none, userEmail := none } :
      Notification).type ≠ some "new_google_user" ∧
    getNotificationContent
      { id := "9", type := some "xyz_unhandled", read := false,
        createdAt := .missing, userName := none, userEmail := none } =
      fallbackContent :=
  ⟨by decide,
   (resolve_unknown_type_is_fallback _ (by decide)).1⟩

/-- Claim C10: the resolved display payload depends only on the fields
`type`, `userName` and `userEmail`: two notifications agreeing on those
three fields resolve to equal payloads, whatever their `id`, `read`,
`createdAt` or anything else. -/
theorem resolve_depends_only_on_type_name_email (n1 n2 : Notification)
    (ht : n1.type = n2.type) (hn : n1.userName = n2.userName)
    (he : n1.userEmail = n2.userEmail) :
    getNotificationContent n1 = getNotificationContent n2 := by
  unfold getNotificationContent
  rw [ht, hn, he]

/-- Witness for C10: two concrete notifications differing in `id`,
`read` and `createdAt` but agreeing on `type`, `userName`, `userEmail`
get the same payload. -/
theorem resolve_depends_only_on_type_name_email_witness :
    getNotificationContent
      { id := "1", type := some "new_google_user", read := false,
        createdAt := .num 5, userName := some "Alice",
        userEmail := some "a@x.com" } =
    getNotificationContent
      { id := "2", type := some "new_google_user", read := true,
        createdAt := .missing, userName := some "Alice",
        userEmail := some "a@x.com" } :=
  resolve_depends_only_on_type_name_email _ _ rfl rfl rfl

/-- A concrete state with two unread notifications and the matching
derived count. -/
def twoUnreadState : PanelState :=
  { notifications :=
      [{ id := "1", type := some "new_google_user", read := false,
         createdAt := .num 0, userName := some "Alice",
         userEmail := none },
       { id := "2", type := none, read := false, createdAt := .missing,
         userName := none, userEmail := none }],
    loading := false, error := "", unreadCount := 2 }

/-- A concrete state whose single notification is already read, with
count 0. -/
def allReadState : PanelState :=
  { notifications :=
      [{ id := "1", type := none, read := true, createdAt := .missing,
         userName := none, userEmail := none }],
    loading := false, error := "", unreadCount := 0 }

/-- Counterexample to claim C1 as stated: starting from
`twoUnreadState` (entries "1" and "2" unread, count 2), after one
successful `acknowledge("1")` the list holds no unread entry with id
"1", yet a second successful `acknowledge("1")` changes the state — the
code decrements `unreadCount` unconditionally (2 → 1 → 0), so the
second call is not a no-op and twice differs from once. -/
theorem ack_second_call_not_noop_counterexample :
    (∀ n ∈ (handleMarkAsRead twoUnreadState "1" .success).notifications,
        n.id = "1" → n.read = true) ∧
    handleMarkAsRead (handleMarkAsRead twoUnreadState "1" .success)
        "1" .success ≠
      handleMarkAsRead twoUnreadState "1" .success := by
  decide

/-- Claim C1 (amended): when the list holds no unread entry with the
given id, a successful `acknowledge(id)` leaves the list, the loading
flag and the error message unchanged but still decrements `unreadCount`
by 1 clamped at 0; it is a full no-op exactly when `unreadCount` is
already 0 — hence a second call after a first is a no-op only when the
count has reached 0. -/
theorem ack_no_unread_match_still_decrements (s : PanelState)
    (nid : String)
    (h : ∀ n ∈ s.notifications, n.id = nid → n.read = true) :
    handleMarkAsRead s nid .success =
      { s with unreadCount := max 0 (s.unreadCount - 1) } ∧
    (handleMarkAsRead s nid .success = s ↔ s.unreadCount = 0) := by
  have hmap : (s.notifications.map fun n =>
      if n.id = nid then { n with read := true } else n) =
      s.notifications := by
    have hfix : ∀ n ∈ s.notifications,
        (if n.id = nid then ({ n with read := true } : Notification)
          else n) = id n := by
      intro n hn
      by_cases hc : n.id = nid
      · rw [if_pos hc, markRead_of_read n (h n hn hc)]
        rfl
      · rw [if_neg hc]
        rfl
    rw [List.map_congr_left hfix, List.map_id]
  have heq : handleMarkAsRead s nid .success =
      { s with unreadCount := max 0 (s.unreadCount - 1) } := by
    simp only [handleMarkAsRead, hmap]
  refine ⟨heq, ?_⟩
  rw [heq]
  cases s with
  | mk ns ld er c =>
    simp only [PanelState.mk.injEq, true_and]
    rw [max_def]
    split_ifs <;> omega

/-- Witness for the amended C1 at `allReadState`: the only entry with
id "1" is read, the count is 0, and the successful acknowledge is a
genuine no-op. -/
theorem ack_no_unread_match_still_decrements_witness :
    (∀ n ∈ allReadState.notifications, n.id = "1" → n.read = true) ∧
    handleMarkAsRead allReadState "1" .success = allReadState :=
  ⟨by decide,
   (ack_no_unread_match_still_decrements allReadState "1"
       (by decide)).2.mpr (by decide)⟩

/-- Counterexample to claim C2 as stated: after a failed fetch sets the
error message, neither the start of the next fetch nor its successful
completion clears it — `fetchNotifications` contains no write that
resets the `error` hook, so the panel is left with a stale error
message after a subsequent successful fetch. -/
theorem fetch_does_not_clear_error_counterexample :
    (fetchStart (fetchNotifications initialState .failure)).error ≠ "" ∧
    (fetchNotifications (fetchNotifications initialState .failure)
        (.success [])).error = "Failed to load notifications" := by
  decide

/-- Claim C2 (amended): invoking fetch transitions to Loading (the
loading flag is set before the collaborator is awaited) but the
previous error message is preserved, both at the start of the fetch and
across a successful completion — a stale error from an earlier failed
fetch is never cleared. -/
theorem fetch_sets_loading_but_preserves_error (s : PanelState)
    (ns : List Notification) :
    (fetchStart s).loading = true ∧
    (fetchStart s).error = s.error ∧
    (fetchNotifications s (.success ns)).error = s.error ∧
    (fetchNotifications s (.success ns)).loading = false :=
  ⟨rfl, rfl, rfl, rfl⟩

/-- Claim C9: under the abstract-time model of `setInterval` /
`clearInterval`, a timer started with interval 1 fires exactly 3 fetch
invocations in 3 time units; after `stopAutoRefresh` no further unit of
time ever triggers a fetch; and the interval the mount effect installs
is 300000 ms. -/
theorem autoRefresh_timer_behaviour :
    (advanceTime (startAutoRefresh 1) 3).2 = 3 ∧
    (∀ (t : TimerState) (n : Nat),
      (advanceTime (stopAutoRefresh t) n).2 = 0) ∧
    defaultRefreshIntervalMs = 300000 := by
  refine ⟨rfl, ?_, rfl⟩
  intro t n
  exact advanceTime_cleared 0 n

/-- Claim C5: on a list with unique ids holding an unread entry with
the acknowledged id at position `j`, a successful `acknowledge(id)`
replaces the list by the same list with only that entry's `read` field
set to `true` (so length and order are unchanged and every other entry
keeps all its fields), decrements `unreadCount` by 1 floored at 0, and
leaves the loading flag and error message alone. -/
theorem ack_success_marks_exactly_matching_entry (s : PanelState)
    (nid : String)
    (hnodup : (s.notifications.map Notification.id).Nodup)
    (j : Nat) (hj : j < s.notifications.length)
    (hid : (s.notifications.get ⟨j, hj⟩).id = nid)
    (_hunread : (s.notifications.get ⟨j, hj⟩).read = false) :
    (handleMarkAsRead s nid .success).notifications =
      s.notifications.set j
        { s.notifications.get ⟨j, hj⟩ with read := true } ∧
    (handleMarkAsRead s nid .success).notifications.length =
      s.notifications.length ∧
    (handleMarkAsRead s nid .success).unreadCount =
      max 0 (s.unreadCount - 1) ∧
    (handleMarkAsRead s nid .success).loading = s.loading ∧
    (handleMarkAsRead s nid .success).error = s.error := by
  have hset := map_markRead_eq_set nid s.notifications j hj hnodup hid
  refine ⟨hset, ?_, rfl, rfl, rfl⟩
  show (s.notifications.map fun n =>
      if n.id = nid then { n with read := true } else n).length =
    s.notifications.length
  rw [List.length_map]

/-- Witness for C5 at `twoUnreadState`, acknowledging id "1" at
position 0. -/
theorem ack_success_marks_exactly_matching_entry_witness :
    (twoUnreadState.notifications.map Notification.id).Nodup ∧
    (handleMarkAsRead twoUnreadState "1" .success).unreadCount =
      max 0 (twoUnreadState.unreadCount - 1) :=
  ⟨by decide,
   (ack_success_marks_exactly_matching_entry twoUnreadState "1"
       (by decide) 0 (by decide) (by decide) (by decide)).2.2.1⟩

/-- Claim C8: `formatNotificationTime` is total given any external date
parser and formatter: every input yields a string — the empty string
for a falsy timestamp, the placeholder `'Invalid date'` when the string
cannot be normalized to a valid date (the caught format failure), or a
formatted date otherwise; a parse failure is never propagated. -/
theorem formatNotificationTime_total_with_placeholder
    (parse : String → Option Int) (fmtDate : Int → String)
    (t : Timestamp) :
    (t = .missing → formatNotificationTime parse fmtDate t = "") ∧
    (∀ s, t = .str s → parse s = none →
      formatNotificationTime parse fmtDate t = "Invalid date") ∧
    (formatNotificationTime parse fmtDate t = "" ∨
      formatNotificationTime parse fmtDate t = "Invalid date" ∨
      ∃ d : Int, formatNotificationTime parse fmtDate t = fmtDate d) := by
  refine ⟨?_, ?_, ?_⟩
  · intro h
    rw [h]
    rfl
  · intro s hs hp
    rw [hs]
    simp [formatNotificationTime, hp]
  · cases t with
    | missing => exact Or.inl rfl
    | str s =>
        cases hp : parse s with
        | none =>
            refine Or.inr (Or.inl ?_)
            simp [formatNotificationTime, hp]
        | some d =>
            refine Or.inr (Or.inr ⟨d, ?_⟩)
            simp [formatNotificationTime, hp]
    | tsObj d => exact Or.inr (Or.inr ⟨d, rfl⟩)
    | num d => exact Or.inr (Or.inr ⟨d, rfl⟩)

/-- Witness for C8 with a parser that rejects everything: a malformed
string yields the placeholder and a missing timestamp yields the empty
string. -/
theorem formatNotificationTime_total_with_placeholder_witness :
    formatNotificationTime (fun _ => none) (fun _ => "May 1, 2024")
        (.str "not-a-date") = "Invalid date" ∧
    formatNotificationTime (fun _ => none) (fun _ => "May 1, 2024")
        .missing = "" :=
  ⟨(formatNotificationTime_total_with_placeholder (fun _ => none)
      (fun _ => "May 1, 2024") (.str "not-a-date")).2.1
      "not-a-date" rfl rfl,
   (formatNotificationTime_total_with_placeholder (fun _ => none)
      (fun _ => "May 1, 2024") .missing).1 rfl⟩

end AdminNotifications
